import Mathlib

/-!
Shallow embedding of the dashboard renderer in `src/main.js`.

JavaScript numbers that may be absent (`undefined`) are modelled as
`Option ℚ`, with `none` standing for an absent or malformed value; the
`Intl.NumberFormat` call renders such a value as the text "NaN", which the
embedding reproduces.  DOM regions mutated by the renderer (the price-table
body, the alerts list, the Plotly chart) are modelled as fields of a `Dom`
record, and the renderer's global state (`selectedCoin`, `priceHistory`)
together with the issued HTTP requests as a `RendererState` record.  Each
render function of `main.js` becomes a pure state transformer.
-/

/-- Check that `pat` is a prefix of the first list (character-wise `==`). -/
def strStartsWith (s pat : List Char) : Bool :=
  match pat, s with
  | [], _ => true
  | _ :: _, [] => false
  | p :: ps, c :: cs => c == p && strStartsWith cs ps

/-- Check that `pat` occurs as a contiguous run somewhere in the list. -/
def strContainsAux (pat : List Char) : List Char → Bool
  | [] => pat.isEmpty
  | c :: rest => strStartsWith (c :: rest) pat || strContainsAux pat rest

/-- String containment test: `pat` occurs contiguously inside `s`. -/
def strContains (s pat : String) : Bool :=
  strContainsAux pat.data s.data

/-- JavaScript `String.prototype.toUpperCase()` restricted to ASCII data. -/
def jsToUpper (s : String) : String :=
  String.mk (s.data.map Char.toUpper)

/-- The expression `coin.charAt(0).toUpperCase() + coin.slice(1)` from
`updatePriceTable` (src/main.js line 36): capitalize only the first
character, keep the rest unchanged. -/
def capitalizeFirst (s : String) : String :=
  match s.data with
  | [] => ""
  | c :: cs => String.mk (c.toUpper :: cs)

/-- Round the rational `n / d` (with `d > 0`) to the nearest integer, ties
away from zero — the default `halfExpand` rounding of `Intl.NumberFormat`. -/
def scaledRound (n : Int) (d : Nat) : Int :=
  if 0 ≤ n then ((2 * n.toNat + d) / (2 * d) : Nat)
  else -(((2 * n.natAbs + d) / (2 * d) : Nat) : Int)

/-- Insert `,` after each group of three characters of a reversed digit
list: the reversed-string half of en-US thousands grouping. -/
def groupRev : List Char → List Char
  | [] => []
  | [a] => [a]
  | [a, b] => [a, b]
  | [a, b, c] => [a, b, c]
  | a :: b :: c :: d :: rest => a :: b :: c :: ',' :: groupRev (d :: rest)

/-- en-US thousands grouping of a digit string: `"1234567"` ↦ `"1,234,567"`. -/
def groupDigits (s : String) : String :=
  String.mk ((groupRev s.data.reverse).reverse)

/-- Left-pad a digit list with `'0'` up to width `d`. -/
def padLeft (l : List Char) (d : Nat) : List Char :=
  List.replicate (d - l.length) '0' ++ l

/-- `Intl.NumberFormat('en-US', {minimumFractionDigits: d,
maximumFractionDigits: d})` applied to a present numeric value: round to
`d` fraction digits (ties away from zero), group the integer part in
thousands, pad the fraction part to exactly `d` digits. -/
def formatNumberRat (q : ℚ) (decimals : Nat) : String :=
  let p : Nat := 10 ^ decimals
  let c : Int := scaledRound (q.num * (p : Int)) q.den
  let a : Nat := c.natAbs
  (if c < 0 then "-" else "")
    ++ groupDigits (toString (a / p))
    ++ (if decimals = 0 then "" else "." ++ String.mk (padLeft (toString (a % p)).data decimals))

/-- `formatNumber(num, decimals)` from src/main.js lines 9–14.  An absent
(or otherwise non-numeric) argument is coerced by `Intl.NumberFormat` to
NaN and rendered as the text `"NaN"`. -/
def formatNumber (num : Option ℚ) (decimals : Nat) : String :=
  match num with
  | none => "NaN"
  | some q => formatNumberRat q decimals

/-- `formatPrice(price)` from src/main.js lines 17–19. -/
def formatPrice (price : Option ℚ) : String :=
  "$" ++ formatNumber price 2

/-- `formatChange(change)` from src/main.js lines 22–26.  The JavaScript
comparison `change >= 0` is false when `change` is absent (NaN). -/
def formatChange (change : Option ℚ) : String :=
  let nonneg : Bool := match change with
    | none => false
    | some q => decide (0 ≤ q)
  let sign := if nonneg then "+" else ""
  let className := if nonneg then "positive-change" else "negative-change"
  "<span class=\"" ++ className ++ "\">" ++ sign ++ formatNumber change 2 ++ "%</span>"

/-- One alert object of a coin snapshot: `{ type, threshold }`, each field
possibly absent. -/
structure Alert where
  type : Option String
  threshold : Option ℚ
deriving DecidableEq

/-- The per-coin snapshot fields read by the renderer; every field may be
absent from a payload. -/
structure CoinInfo where
  usd : Option ℚ
  usd_24h_change : Option ℚ
  rsi : Option ℚ
  ma_7 : Option ℚ
  ma_30 : Option ℚ
  alerts : Option (List Alert)
deriving DecidableEq

/-- One point of a coin's price history: `{ timestamp, price }`. -/
structure HistoryPoint where
  timestamp : ℚ
  price : ℚ
deriving DecidableEq

/-- The latest-snapshot payload: coin id ↦ snapshot fields, in the key
order that `Object.entries` iterates. -/
abbrev LatestSnapshotMap := List (String × CoinInfo)

/-- The history payload: coin id ↦ ordered list of history points. -/
abbrev HistoryMap := List (String × List HistoryPoint)

/-- One `<tr>` of the price table: the six `<td>` texts. -/
structure Row where
  nameCell : String
  priceCell : String
  changeCell : String
  rsiCell : String
  ma7Cell : String
  ma30Cell : String
deriving DecidableEq

/-- One entry of the alerts list: its CSS class and its rendered text. -/
structure AlertEntry where
  className : String
  text : String
deriving DecidableEq

/-- The trace handed to `Plotly.newPlot` in `updatePriceChart`: x values
(millisecond timestamps), y values (prices), and the series name. -/
structure ChartPlot where
  x : List ℚ
  y : List ℚ
  name : String
deriving DecidableEq

/-- The three DOM regions the renderer mutates. -/
structure Dom where
  priceTable : List Row
  alertsList : List AlertEntry
  chart : Option ChartPlot
deriving DecidableEq

/-- Renderer-side global state plus the trace of HTTP requests issued. -/
structure RendererState where
  selectedCoin : String
  priceHistory : HistoryMap
  dom : Dom
  requests : List String
deriving DecidableEq

/-- One row built by `updatePriceTable` (src/main.js lines 34–42): name with
first character capitalized, then `formatPrice(info.usd)`,
`formatChange(info.usd_24h_change)`, `formatNumber(info.rsi || 0)`,
`formatPrice(info.ma_7 || 0)`, `formatPrice(info.ma_30 || 0)`. -/
def renderRow (coin : String) (info : CoinInfo) : Row :=
  { nameCell := capitalizeFirst coin
    priceCell := formatPrice info.usd
    changeCell := formatChange info.usd_24h_change
    rsiCell := formatNumber (some (info.rsi.getD 0)) 2
    ma7Cell := formatPrice (some (info.ma_7.getD 0))
    ma30Cell := formatPrice (some (info.ma_30.getD 0)) }

/-- `updatePriceTable(data)` from src/main.js lines 29–46: clear the table
body, then append one row per entry of `data`. -/
def updatePriceTable (data : LatestSnapshotMap) (dom : Dom) : Dom :=
  { dom with priceTable := data.map fun e => renderRow e.1 e.2 }

/-- The Plotly trace built by `updatePriceChart` (src/main.js lines 52–64):
x from `d.timestamp * 1000`, y from `d.price`, name `coin.toUpperCase()`. -/
def mkTrace (coin : String) (points : List HistoryPoint) : ChartPlot :=
  { x := points.map fun d => d.timestamp * 1000
    y := points.map fun d => d.price
    name := jsToUpper coin }

/-- `updatePriceChart(coin, history)` from src/main.js lines 49–81: return
without touching the chart when `history[coin]` is absent, otherwise replot
the chart from the coin's history points (even when that list is empty). -/
def updatePriceChart (coin : String) (history : HistoryMap) (dom : Dom) : Dom :=
  match history.lookup coin with
  | none => dom
  | some points => { dom with chart := some (mkTrace coin points) }

/-- One alerts-list entry built by `updateAlerts` (src/main.js lines
91–96): class `alert alert-high` and the word `above` exactly when
`alert.type === 'high'`, otherwise `alert alert-low` and `below`. -/
def alertEntry (coin : String) (a : Alert) : AlertEntry :=
  { className := "alert alert-" ++ (if a.type = some "high" then "high" else "low")
    text := "<strong>" ++ jsToUpper coin ++ "</strong> price is "
      ++ (if a.type = some "high" then "above" else "below")
      ++ " " ++ formatPrice a.threshold }

/-- `updateAlerts(data)` from src/main.js lines 84–100: clear the alerts
list, then for each coin whose snapshot has a (truthy) `alerts` field append
one entry per alert, in order. -/
def updateAlerts (data : LatestSnapshotMap) (dom : Dom) : Dom :=
  { dom with
    alertsList := data.flatMap fun e =>
      match e.2.alerts with
      | none => []
      | some alerts => alerts.map (alertEntry e.1) }

/-- `selectCoin(coin)` from src/main.js lines 103–106: set `selectedCoin`
and replot the chart from the currently held history. -/
def selectCoin (coin : String) (s : RendererState) : RendererState :=
  { s with
    selectedCoin := coin
    dom := updatePriceChart coin s.priceHistory s.dom }

/-- The `price_update` socket handler from src/main.js lines 113–118:
replace `priceHistory`, re-render the table, replot the chart for the
currently selected coin from the new history, re-render the alerts list. -/
def onPriceUpdate (latest_data : LatestSnapshotMap) (price_history : HistoryMap)
    (s : RendererState) : RendererState :=
  { s with
    priceHistory := price_history
    dom := updateAlerts latest_data
      (updatePriceChart s.selectedCoin price_history
        (updatePriceTable latest_data s.dom)) }

/-- Completion of the one-shot `fetch('/api/latest')` from src/main.js
lines 121–125: record the request and re-render the table. -/
def onLatestFetched (data : LatestSnapshotMap) (s : RendererState) : RendererState :=
  { s with
    dom := updatePriceTable data s.dom
    requests := s.requests ++ ["/api/latest"] }

/-- Completion of the one-shot `fetch('/api/history')` from src/main.js
lines 127–132: record the request, replace `priceHistory`, replot. -/
def onHistoryFetched (data : HistoryMap) (s : RendererState) : RendererState :=
  { s with
    priceHistory := data
    dom := updatePriceChart s.selectedCoin data s.dom
    requests := s.requests ++ ["/api/history"] }

/-- A snapshot in which every per-coin field is absent. -/
def noInfo : CoinInfo :=
  { usd := none, usd_24h_change := none, rsi := none, ma_7 := none,
    ma_30 := none, alerts := none }

/-- Empty DOM regions, the state before any rendering. -/
def emptyDom : Dom :=
  { priceTable := [], alertsList := [], chart := none }

/-- The latest-snapshot payload of claim C2: coin `bitcoin` carrying a
`high`-50000 alert followed by a `low`-40000 alert. -/
def btcAlertsMap : LatestSnapshotMap :=
  [("bitcoin",
    { noInfo with
        usd := some 67000
        alerts := some
          [{ type := some "high", threshold := some 50000 },
           { type := some "low", threshold := some 40000 }] })]

/-- A `pat`-then-`suf` list starts with `pat`. -/
theorem strStartsWith_append (pat suf : List Char) :
    strStartsWith (pat ++ suf) pat = true := by
  induction pat with
  | nil => simp [strStartsWith]
  | cons p ps ih => simp [strStartsWith, ih]

/-- `strContainsAux` finds `pat` inside `pre ++ (pat ++ suf)`. -/
theorem strContainsAux_append (pre pat suf : List Char) :
    strContainsAux pat (pre ++ (pat ++ suf)) = true := by
  induction pre with
  | nil =>
    cases pat with
    | nil =>
      cases suf with
      | nil => simp [strContainsAux]
      | cons c rest => simp [strContainsAux, strStartsWith]
    | cons p ps =>
      have h := strStartsWith_append (p :: ps) suf
      simp only [List.cons_append] at h
      simp [strContainsAux, h]
  | cons c cs ih =>
    simp [strContainsAux, ih]

/-- `strContains` holds whenever the character data of `s` decomposes as
`pre ++ pat.data ++ suf`. -/
theorem strContains_of_data (s pat : String) (pre suf : List Char)
    (h : s.data = pre ++ (pat.data ++ suf)) : strContains s pat = true := by
  unfold strContains
  rw [h]
  exact strContainsAux_append pre pat.data suf

/-- C6: `formatChange` renders a percentage with an explicit leading sign
for non-negative inputs and a class distinguishing non-negative from
negative: `formatChange(-3.456)` yields
`<span class="negative-change">-3.46%</span>` and `formatChange(2)` yields
`<span class="positive-change">+2.00%</span>` (and `mkRat (-3456) 1000` is
the rational `-3.456`). -/
theorem c6_formatChange_examples :
    formatChange (some (mkRat (-3456) 1000))
      = "<span class=\"negative-change\">-3.46%</span>" ∧
    formatChange (some 2)
      = "<span class=\"positive-change\">+2.00%</span>" ∧
    (mkRat (-3456) 1000 : ℚ) = -3.456 := by
  refine ⟨by decide, by decide, ?_⟩
  rw [Rat.mkRat_eq_div]
  norm_num

/-- C7: `formatPrice` renders a price with a leading currency symbol,
exactly two decimal digits and thousands grouping:
`formatPrice(1234.5)` yields `$1,234.50` (and `mkRat 12345 10` is the
rational `1234.5`). -/
theorem c7_formatPrice_example :
    formatPrice (some (mkRat 12345 10)) = "$1,234.50" ∧
    (mkRat 12345 10 : ℚ) = 1234.5 := by
  refine ⟨by decide, ?_⟩
  rw [Rat.mkRat_eq_div]
  norm_num

/-- C2: for a snapshot map in which coin `bitcoin` carries a `high` alert
at threshold 50000 followed by a `low` alert at threshold 40000,
`updateAlerts` produces exactly two entries in that order, the first with
class `alert alert-high` and text containing `above $50,000.00`, the
second with class `alert alert-low` and text containing
`below $40,000.00`. -/
theorem c2_bitcoin_two_alerts :
    (updateAlerts btcAlertsMap emptyDom).alertsList.length = 2 ∧
    ((updateAlerts btcAlertsMap emptyDom).alertsList.getD 0
        { className := "", text := "" }).className = "alert alert-high" ∧
    strContains ((updateAlerts btcAlertsMap emptyDom).alertsList.getD 0
        { className := "", text := "" }).text "above $50,000.00" = true ∧
    ((updateAlerts btcAlertsMap emptyDom).alertsList.getD 1
        { className := "", text := "" }).className = "alert alert-low" ∧
    strContains ((updateAlerts btcAlertsMap emptyDom).alertsList.getD 1
        { className := "", text := "" }).text "below $40,000.00" = true := by
  decide

/-- C5: `updatePriceTable` renders exactly one row per coin of the
snapshot map, and each row's name cell is the coin name with only its
first character capitalized. -/
theorem c5_one_row_per_coin (data : LatestSnapshotMap) (dom : Dom) :
    (updatePriceTable data dom).priceTable.length = data.length ∧
    (updatePriceTable data dom).priceTable.map Row.nameCell
      = data.map fun e => capitalizeFirst e.1 := by
  constructor
  · simp [updatePriceTable]
  · simp only [updatePriceTable, List.map_map]
    rfl

/-- C8: rendering is idempotent and total-replacement: applying
`updatePriceTable` (likewise `updateAlerts`) twice with the same data
equals applying it once, and the rebuilt region does not depend on the
previous DOM state. -/
theorem c8_render_idempotent_total (data : LatestSnapshotMap) (dom dom' : Dom) :
    (updatePriceTable data (updatePriceTable data dom) = updatePriceTable data dom ∧
      updateAlerts data (updateAlerts data dom) = updateAlerts data dom) ∧
    ((updatePriceTable data dom).priceTable = (updatePriceTable data dom').priceTable ∧
      (updateAlerts data dom).alertsList = (updateAlerts data dom').alertsList) :=
  ⟨⟨rfl, rfl⟩, rfl, rfl⟩

/-- C9: `selectCoin` updates only `selectedCoin` and the chart (replotted
from the currently held history), leaving `priceHistory`, the table, the
alert list and the set of issued HTTP requests unchanged. -/
theorem c9_selectCoin_frame (coin : String) (s : RendererState) :
    (selectCoin coin s).selectedCoin = coin ∧
    (selectCoin coin s).priceHistory = s.priceHistory ∧
    (selectCoin coin s).requests = s.requests ∧
    (selectCoin coin s).dom.priceTable = s.dom.priceTable ∧
    (selectCoin coin s).dom.alertsList = s.dom.alertsList ∧
    (selectCoin coin s).dom.chart
      = (updatePriceChart coin s.priceHistory s.dom).chart := by
  unfold selectCoin updatePriceChart
  cases s.priceHistory.lookup coin <;> simp

/-- C3: the `price_update` handler replaces `priceHistory` wholesale with
the pushed history, re-renders the full price table from the pushed
snapshot map, replots the chart for the currently selected coin from the
new history, re-renders the alert list from the same snapshot map, and
issues no request; `selectedCoin` is untouched. -/
theorem c3_price_update_handler (latest_data : LatestSnapshotMap)
    (price_history : HistoryMap) (s : RendererState) :
    (onPriceUpdate latest_data price_history s).priceHistory = price_history ∧
    (onPriceUpdate latest_data price_history s).selectedCoin = s.selectedCoin ∧
    (onPriceUpdate latest_data price_history s).requests = s.requests ∧
    (onPriceUpdate latest_data price_history s).dom.priceTable
      = (updatePriceTable latest_data s.dom).priceTable ∧
    (onPriceUpdate latest_data price_history s).dom.alertsList
      = (updateAlerts latest_data s.dom).alertsList ∧
    (onPriceUpdate latest_data price_history s).dom.chart
      = (updatePriceChart s.selectedCoin price_history s.dom).chart := by
  unfold onPriceUpdate updatePriceTable updateAlerts updatePriceChart
  cases price_history.lookup s.selectedCoin <;> simp

/-- C4 (counterexample): with a history map that carries coin `bitcoin`
with an empty list of points — so `bitcoin` has no history entries —
`updatePriceChart` is not a no-op: it replots the chart with an empty
series, because the JavaScript guard `!history[coin]` lets an empty (still
truthy) array through. -/
theorem c4_counterexample :
    updatePriceChart "bitcoin" [("bitcoin", [])] emptyDom ≠ emptyDom := by
  decide

/-- C4 (amended): `updatePriceChart coin history` is a no-op exactly when
`coin` is absent as a key of `history`; in particular it is a no-op for
every coin when `history` is the empty map. -/
theorem c4_chart_noop_when_coin_absent (coin : String) (history : HistoryMap)
    (dom : Dom) (h : history.lookup coin = none) :
    updatePriceChart coin history dom = dom ∧
    updatePriceChart coin [] dom = dom := by
  constructor <;> simp [updatePriceChart, h, List.lookup]

/-- C4 (witness): the amended no-op statement at a concrete input: coin
`ethereum` is not a key of the one-entry map for `bitcoin`. -/
theorem c4_chart_noop_witness :
    updatePriceChart "ethereum" [("bitcoin", [])] emptyDom = emptyDom ∧
    updatePriceChart "ethereum" [] emptyDom = emptyDom :=
  c4_chart_noop_when_coin_absent "ethereum" [("bitcoin", [])] emptyDom (by decide)

/-- C1 (counterexample): for the payload in which coin `bitcoin` has every
per-coin field absent, `updatePriceTable` renders the price cell as
`$NaN` and the 24h-change cell as `NaN%` — text coming from
`Intl.NumberFormat`'s NaN coercion, not a default-to-zero or empty-string
value (the RSI and moving-average cells do default to `0.00` / `$0.00`,
and the coin still gets its row). -/
theorem c1_counterexample :
    (updatePriceTable [("bitcoin", noInfo)] emptyDom).priceTable =
      [{ nameCell := "Bitcoin"
         priceCell := "$NaN"
         changeCell := "<span class=\"negative-change\">NaN%</span>"
         rsiCell := "0.00"
         ma7Cell := "$0.00"
         ma30Cell := "$0.00" }] ∧
    "$NaN" ≠ formatPrice (some 0) ∧
    "$NaN" ≠ "" := by
  decide

/-- C1 (amended): a missing per-coin field never produces an error state:
a missing `rsi` renders as `0.00`, missing `ma_7` / `ma_30` render as
`$0.00`, a missing `alerts` field contributes no alert entries; missing
`usd` / `usd_24h_change`, however, are not defaulted to zero but rendered
as NaN text (`$NaN`, and `NaN%` with class `negative-change`). -/
theorem c1_missing_field_rendering (coin : String) (info : CoinInfo) (dom : Dom) :
    (info.rsi = none → (renderRow coin info).rsiCell = "0.00") ∧
    (info.ma_7 = none → (renderRow coin info).ma7Cell = "$0.00") ∧
    (info.ma_30 = none → (renderRow coin info).ma30Cell = "$0.00") ∧
    (info.usd = none → (renderRow coin info).priceCell = "$NaN") ∧
    (info.usd_24h_change = none →
      (renderRow coin info).changeCell = "<span class=\"negative-change\">NaN%</span>") ∧
    (info.alerts = none → (updateAlerts [(coin, info)] dom).alertsList = []) := by
  refine ⟨fun h => ?_, fun h => ?_, fun h => ?_, fun h => ?_, fun h => ?_, fun h => ?_⟩
  · show formatNumber (some (info.rsi.getD 0)) 2 = "0.00"
    rw [h]
    decide
  · show formatPrice (some (info.ma_7.getD 0)) = "$0.00"
    rw [h]
    decide
  · show formatPrice (some (info.ma_30.getD 0)) = "$0.00"
    rw [h]
    decide
  · show formatPrice info.usd = "$NaN"
    rw [h]
    decide
  · show formatChange info.usd_24h_change = "<span class=\"negative-change\">NaN%</span>"
    rw [h]
    decide
  · simp [updateAlerts, h]

/-- C1 (witness): the amended defaults at the concrete all-absent snapshot
for coin `bitcoin`. -/
theorem c1_missing_field_witness :
    (renderRow "bitcoin" noInfo).rsiCell = "0.00" ∧
    (renderRow "bitcoin" noInfo).ma7Cell = "$0.00" ∧
    (renderRow "bitcoin" noInfo).ma30Cell = "$0.00" ∧
    (renderRow "bitcoin" noInfo).priceCell = "$NaN" ∧
    (renderRow "bitcoin" noInfo).changeCell = "<span class=\"negative-change\">NaN%</span>" ∧
    (updateAlerts [("bitcoin", noInfo)] emptyDom).alertsList = [] := by
  have h := c1_missing_field_rendering "bitcoin" noInfo emptyDom
  exact ⟨h.1 rfl, h.2.1 rfl, h.2.2.1 rfl, h.2.2.2.1 rfl, h.2.2.2.2.1 rfl, h.2.2.2.2.2 rfl⟩

/-- C10: `updateAlerts` treats an alert whose `type` is exactly `high` as
a high alert (class `alert alert-high`, text containing `above` plus the
formatted threshold) and every other alert — `type` absent or any other
value — as a low alert (class `alert alert-low`, text containing `below`
plus the formatted threshold). -/
theorem c10_alert_type_dispatch (coin : String) (a : Alert) :
    (a.type = some "high" →
      (alertEntry coin a).className = "alert alert-high" ∧
      strContains (alertEntry coin a).text ("above " ++ formatPrice a.threshold) = true) ∧
    (a.type ≠ some "high" →
      (alertEntry coin a).className = "alert alert-low" ∧
      strContains (alertEntry coin a).text ("below " ++ formatPrice a.threshold) = true) := by
  refine ⟨fun h => ?_, fun h => ?_⟩
  · constructor
    · show "alert alert-" ++ (if a.type = some "high" then "high" else "low") = _
      rw [if_pos h]
      decide
    · show strContains ("<strong>" ++ jsToUpper coin ++ "</strong> price is "
          ++ (if a.type = some "high" then "above" else "below")
          ++ " " ++ formatPrice a.threshold) ("above " ++ formatPrice a.threshold) = true
      rw [if_pos h]
      refine strContains_of_data _ _
        ("<strong>" ++ jsToUpper coin ++ "</strong> price is ").data [] ?_
      simp
  · constructor
    · show "alert alert-" ++ (if a.type = some "high" then "high" else "low") = _
      rw [if_neg h]
      decide
    · show strContains ("<strong>" ++ jsToUpper coin ++ "</strong> price is "
          ++ (if a.type = some "high" then "above" else "below")
          ++ " " ++ formatPrice a.threshold) ("below " ++ formatPrice a.threshold) = true
      rw [if_neg h]
      refine strContains_of_data _ _
        ("<strong>" ++ jsToUpper coin ++ "</strong> price is ").data [] ?_
      simp

/-- C10 (witness): the dispatch at two concrete alerts of coin `bitcoin`:
a `high` alert at threshold 50000 and a type-less alert at threshold
40000. -/
theorem c10_alert_type_witness :
    ((alertEntry "bitcoin" { type := some "high", threshold := some 50000 }).className
        = "alert alert-high" ∧
      strContains (alertEntry "bitcoin" { type := some "high", threshold := some 50000 }).text
        ("above " ++ formatPrice (some 50000)) = true) ∧
    ((alertEntry "bitcoin" { type := none, threshold := some 40000 }).className
        = "alert alert-low" ∧
      strContains (alertEntry "bitcoin" { type := none, threshold := some 40000 }).text
        ("below " ++ formatPrice (some 40000)) = true) :=
  ⟨(c10_alert_type_dispatch "bitcoin"
      { type := some "high", threshold := some 50000 }).1 rfl,
   (c10_alert_type_dispatch "bitcoin"
      { type := none, threshold := some 40000 }).2 (by decide)⟩
